import Mathlib

/-!
Shallow embedding of `py_layered_settings`, a small Python library that
resolves a named configuration value by walking a layered override
hierarchy (e.g. system → account → group → user).

Two source variants are embedded:

* `layered_settings` (src/layered_settings/orm.py): the caller supplies an
  ordered list `parent_ids` of ancestor entity ids, consumed one per
  fallback step (`LayeredSetting.get_setting`).
* `multilayer_settings` (src/multilayer_settings/orm.py): the caller
  supplies a single `parent_id` that is re-used at every fallback step
  (`MultilayerSetting._get_setting`), plus `get_setting_default` and the
  session context manager `dbsession_ctx` (src/multilayer_settings/db.py).

Modelling conventions:

* A SQLAlchemy session is modelled as an in-memory snapshot of the two
  tables (`Session` below: a list of `Layer` rows and a list of setting
  rows); `dbsession.scalars(select(T).where(...)).first()` is `List.find?`
  with the embedded where-clause.
* Python integers are `Int`; nullable columns and optional arguments are
  `Option Int`.  Python truthiness on such a value (`if entity_id:`) is
  `truthy`: `None` and `0` are falsy, every other integer is truthy.
* The `parent_ids` argument (Python `Optional[List[Optional[int]]]`,
  default `None`) is modelled as `List (Option Int)`: the code only tests
  its truthiness (where `None` and `[]` agree) and takes head/tail of a
  non-empty list, so `None` and `[]` are observationally equal.
* The multilayer variant's recursion is not structurally terminating (its
  layer walk can cycle), so it is embedded fuel-indexed: `none` means the
  fuel was exhausted, `some r` means the Python call returns `r`.
-/

/-- Python truthiness of an optional integer: `None` and `0` are falsy. -/
def truthy : Option Int → Bool
  | none => false
  | some n => n != 0

namespace layered_settings

/-- Row of table `settings__layer` (src/layered_settings/orm.py). -/
structure Layer where
  id : Int
  layer_name : String
  fallback_id : Option Int
deriving Repr, DecidableEq

/-- Row of table `settings__layered_setting` (src/layered_settings/orm.py). -/
structure LayeredSetting where
  id : Int
  setting_name : String
  value : String
  layer_id : Int
  entity_id : Option Int
  parent_id : Option Int
deriving Repr, DecidableEq

/-- Snapshot of the database visible through the SQLAlchemy session. -/
structure Session where
  layers : List Layer
  settings : List LayeredSetting
deriving Repr, DecidableEq

/-- The where-clause built at the top of `LayeredSetting.get_setting`:
`name == name`, `layer_id == layer_id`, and — by Python truthiness of
`entity_id` — either `entity_id == entity_id` or `entity_id IS NULL`. -/
def settingMatches (name : String) (layer_id : Int) (entity_id : Option Int)
    (s : LayeredSetting) : Bool :=
  s.setting_name == name && s.layer_id == layer_id &&
    (if truthy entity_id then s.entity_id == entity_id else s.entity_id == none)

/-- `dbsession.scalars(select(LayeredSetting).where(*where_clause)).first()`. -/
def lookupSetting (db : Session) (name : String) (layer_id : Int)
    (entity_id : Option Int) : Option LayeredSetting :=
  db.settings.find? (settingMatches name layer_id entity_id)

/-- `dbsession.scalars(select(Layer).where(Layer.id == layer_id)).first()`. -/
def findLayer (db : Session) (layer_id : Int) : Option Layer :=
  db.layers.find? (fun l => l.id == layer_id)

/-- `dbsession.scalars(select(Layer).where(Layer.fallback_id.is_(None))).first()`. -/
def findDefaultLayer (db : Session) : Option Layer :=
  db.layers.find? (fun l => l.fallback_id == none)

/-- `LayeredSetting.get_setting` (src/layered_settings/orm.py, lines 57–98),
embedded statement by statement.  The guard `if not result and (entity_id
or parent_ids)` is the dependent `if`; inside it, the `if parent_ids: ...
if layer and layer.fallback_id: return ...` early return is the nested
matches, all of whose fall-through arms continue with the default-layer
attempt, exactly as the Python falls through. -/
def LayeredSetting.get_setting (db : Session) (name : String) (layer_id : Int)
    (entity_id : Option Int) (parent_ids : List (Option Int)) :
    Option LayeredSetting :=
  let result := lookupSetting db name layer_id entity_id
  if h : result = none ∧ (truthy entity_id = true ∨ parent_ids ≠ []) then
    match parent_ids with
    | p :: rest =>
      match findLayer db layer_id with
      | some layer =>
        match layer.fallback_id with
        | some f =>
          if f != 0 then
            LayeredSetting.get_setting db name f p rest
          else
            match findDefaultLayer db with
            | some dl => LayeredSetting.get_setting db name dl.id none []
            | none => none
        | none =>
          match findDefaultLayer db with
          | some dl => LayeredSetting.get_setting db name dl.id none []
          | none => none
      | none =>
        match findDefaultLayer db with
        | some dl => LayeredSetting.get_setting db name dl.id none []
        | none => none
    | [] =>
      match findDefaultLayer db with
      | some dl => LayeredSetting.get_setting db name dl.id none []
      | none => none
  else
    result
termination_by 2 * parent_ids.length +
  (if truthy entity_id = true ∨ parent_ids ≠ [] then 1 else 0)
decreasing_by
  all_goals simp_all [truthy]
  all_goals split <;> omega

/-- Instrumented twin of `LayeredSetting.get_setting`: identical control
flow, but additionally records, in order, every `(layer_id, entity_id)`
pair for which a `settings__layered_setting` lookup is issued (one per
invocation, the first statement of the Python function).  The first
component is the same result as `LayeredSetting.get_setting`. -/
def get_setting_trace (db : Session) (name : String) (layer_id : Int)
    (entity_id : Option Int) (parent_ids : List (Option Int)) :
    Option LayeredSetting × List (Int × Option Int) :=
  let result := lookupSetting db name layer_id entity_id
  if h : result = none ∧ (truthy entity_id = true ∨ parent_ids ≠ []) then
    match parent_ids with
    | p :: rest =>
      match findLayer db layer_id with
      | some layer =>
        match layer.fallback_id with
        | some f =>
          if f != 0 then
            let t := get_setting_trace db name f p rest
            (t.1, (layer_id, entity_id) :: t.2)
          else
            match findDefaultLayer db with
            | some dl =>
              let t := get_setting_trace db name dl.id none []
              (t.1, (layer_id, entity_id) :: t.2)
            | none => (none, [(layer_id, entity_id)])
        | none =>
          match findDefaultLayer db with
          | some dl =>
            let t := get_setting_trace db name dl.id none []
            (t.1, (layer_id, entity_id) :: t.2)
          | none => (none, [(layer_id, entity_id)])
      | none =>
        match findDefaultLayer db with
        | some dl =>
          let t := get_setting_trace db name dl.id none []
          (t.1, (layer_id, entity_id) :: t.2)
        | none => (none, [(layer_id, entity_id)])
    | [] =>
      match findDefaultLayer db with
      | some dl =>
        let t := get_setting_trace db name dl.id none []
        (t.1, (layer_id, entity_id) :: t.2)
      | none => (none, [(layer_id, entity_id)])
  else
    (result, [(layer_id, entity_id)])
termination_by 2 * parent_ids.length +
  (if truthy entity_id = true ∨ parent_ids ≠ [] then 1 else 0)
decreasing_by
  all_goals simp_all [truthy]
  all_goals split <;> omega

/-- Decides, following exactly the branch structure of
`LayeredSetting.get_setting`, whether a call falls all the way through to
the default-layer attempt (the code after `# it's the last/default
layer`): every lookup on the walked chain must miss and the continuation
guard `not result and (entity_id or parent_ids)` must hold at every
recursive state. -/
def reachesDefault (db : Session) (name : String) :
    Int → Option Int → List (Option Int) → Bool
  | layer_id, entity_id, [] =>
    (lookupSetting db name layer_id entity_id).isNone && truthy entity_id
  | layer_id, entity_id, p :: rest =>
    (lookupSetting db name layer_id entity_id).isNone &&
      (match findLayer db layer_id with
       | some layer =>
         match layer.fallback_id with
         | some f => if f != 0 then reachesDefault db name f p rest else true
         | none => true
       | none => true)

end layered_settings

namespace multilayer_settings

/-- Row of table `settings__layer` (src/multilayer_settings/orm.py). -/
structure Layer where
  id : Int
  layer_name : String
  fallback_id : Option Int
deriving Repr, DecidableEq

/-- Row of table `settings__multilayer_setting`
(src/multilayer_settings/orm.py). -/
structure MultilayerSetting where
  id : Int
  setting_name : String
  value : String
  layer_id : Int
  entity_id : Option Int
  parent_id : Option Int
deriving Repr, DecidableEq

/-- Snapshot of the database visible through the SQLAlchemy session. -/
structure Session where
  layers : List Layer
  settings : List MultilayerSetting
deriving Repr, DecidableEq

/-- The where-clause built at the top of `MultilayerSetting._get_setting`:
`name == name`, `layer_id == layer_id`, and — by Python truthiness of
`entity_id` — either `entity_id == entity_id` or `entity_id IS NULL`. -/
def settingMatches (name : String) (layer_id : Int) (entity_id : Option Int)
    (s : MultilayerSetting) : Bool :=
  s.setting_name == name && s.layer_id == layer_id &&
    (if truthy entity_id then s.entity_id == entity_id else s.entity_id == none)

/-- `dbsession.scalars(select(MultilayerSetting).where(*where_clause)).first()`. -/
def lookupSetting (db : Session) (name : String) (layer_id : Int)
    (entity_id : Option Int) : Option MultilayerSetting :=
  db.settings.find? (settingMatches name layer_id entity_id)

/-- `dbsession.scalars(select(Layer).where(Layer.id == layer_id)).first()`. -/
def findLayer (db : Session) (layer_id : Int) : Option Layer :=
  db.layers.find? (fun l => l.id == layer_id)

/-- `dbsession.scalars(select(Layer).where(Layer.fallback_id.is_(None))).first()`. -/
def findDefaultLayer (db : Session) : Option Layer :=
  db.layers.find? (fun l => l.fallback_id == none)

/-- `MultilayerSetting._get_setting` (src/multilayer_settings/orm.py,
lines 68–116).  Unlike the `layered_settings` variant, the recursive call
passes the same `parent_id` again (`entity_id=parent_id,
parent_id=parent_id`), so the recursion is not structurally terminating
when the `Layer.fallback_id` chain has a cycle; the embedding is therefore
fuel-indexed: `none` means the fuel ran out before the Python call would
have returned, `some r` means the call returns `r`.  All fall-through arms
continue with the default-layer attempt, exactly as the Python falls
through. -/
def MultilayerSetting.get_setting_fuel :
    Nat → Session → String → Int → Option Int → Option Int →
    Option (Option MultilayerSetting)
  | 0, _, _, _, _, _ => none
  | fuel + 1, db, name, layer_id, entity_id, parent_id =>
    let result := lookupSetting db name layer_id entity_id
    if result = none ∧ (truthy entity_id = true ∨ truthy parent_id = true) then
      let defaultAttempt : Option (Option MultilayerSetting) :=
        match findDefaultLayer db with
        | some dl => MultilayerSetting.get_setting_fuel fuel db name dl.id none none
        | none => some none
      if truthy parent_id then
        match findLayer db layer_id with
        | some layer =>
          match layer.fallback_id with
          | some f =>
            if f != 0 then
              MultilayerSetting.get_setting_fuel fuel db name f parent_id parent_id
            else defaultAttempt
          | none => defaultAttempt
        | none => defaultAttempt
      else defaultAttempt
    else some result

/-- `MultilayerSetting.get_setting_default` (src/multilayer_settings/orm.py,
lines 57–66).  The inner `_get_setting(dbsession, name, layer.id)` call has
`entity_id = parent_id = None`, so its continuation guard is false and it
returns after its single lookup; fuel 1 is exact for it (see
`multilayer_settings.get_setting_fuel_none_none`). -/
def MultilayerSetting.get_setting_default (db : Session) (name : String) :
    Option (Option MultilayerSetting) :=
  match findDefaultLayer db with
  | some layer => MultilayerSetting.get_setting_fuel 1 db name layer.id none none
  | none => some none

end multilayer_settings

namespace db

/-- External operations of a SQLAlchemy session, as used by
`dbsession_ctx` (src/multilayer_settings/db.py): `commit` may fail (second
component `some err`), `rollback` is assumed to succeed, which is the
scope of the claims about this function. -/
structure SessionOps (σ ε : Type) where
  commit : σ → σ × Option ε
  rollback : σ → σ

/-- `dbsession_ctx` (src/multilayer_settings/db.py, lines 26–37), embedded
with the semantics of `@contextlib.contextmanager`:

* `body` is the caller's `with`-block, run at the `yield`; it returns the
  session state it produced and `some err` if it raised.  An exception
  raised in the block is thrown into the generator at the `yield`, where
  the bare `except:` catches it, rolls back, and — because the generator
  then returns instead of re-raising — `__exit__` reports the exception as
  suppressed.
* If the block succeeds and `auto_commit` is set, `session.commit()` runs;
  if it raises, the same bare `except:` catches it and rolls back.

The second component of the result is the exception observed by the code
surrounding the `with`-statement: `none` means the statement completed
normally. -/
def dbsession_ctx {σ ε : Type} (ops : SessionOps σ ε)
    (session_factory : Unit → σ) (auto_commit : Bool)
    (body : σ → σ × Option ε) : σ × Option ε :=
  let session := session_factory ()
  let r1 := body session
  match r1.2 with
  | some _ => (ops.rollback r1.1, none)
  | none =>
    if auto_commit then
      let r2 := ops.commit r1.1
      match r2.2 with
      | some _ => (ops.rollback r2.1, none)
      | none => (r2.1, none)
    else (r1.1, none)

end db

namespace layered_settings

/-- Scenario A store (spec §8): layers `system(root) ← account ← group ←
user`; `system` holds `lights = "0"`; no other `lights` rows.  Also the
store of the C3 counterexample. -/
def scenarioA_db : Session :=
  { layers := [⟨1, "system", none⟩, ⟨2, "account", some 1⟩,
               ⟨3, "group", some 2⟩, ⟨4, "user", some 3⟩],
    settings := [⟨1, "lights", "0", 1, none, none⟩] }

/-- Scenario B store (spec §8): account `A2 = 11` has `lights = "a20"`,
group `G2 = 21` has `lights = "g20"`, user `U2 = 31` has no row. -/
def scenarioB_db : Session :=
  { layers := [⟨1, "system", none⟩, ⟨2, "account", some 1⟩,
               ⟨3, "group", some 2⟩, ⟨4, "user", some 3⟩],
    settings := [⟨1, "lights", "a20", 2, some 11, none⟩,
                 ⟨2, "lights", "g20", 3, some 21, none⟩] }

/-- Store for the C1 counterexample: a single layer and a single setting
row whose `entity_id` is the Python-falsy id `0`. -/
def zeroEntity_db : Session :=
  { layers := [⟨1, "system", none⟩],
    settings := [⟨1, "n", "v", 1, some 0, none⟩] }

/-- Store for the C4 witness: four layers and no setting rows at all. -/
def empty_settings_db : Session :=
  { layers := [⟨1, "system", none⟩, ⟨2, "account", some 1⟩,
               ⟨3, "group", some 2⟩, ⟨4, "user", some 3⟩],
    settings := [] }

/-- Store for the C5 demonstration: at the same `(name, layer)` there is a
row with `entity_id = 0` and a layer-default row with null `entity_id`. -/
def zeroVsNull_db : Session :=
  { layers := [⟨1, "system", none⟩],
    settings := [⟨1, "n", "zero-row", 1, some 0, none⟩,
                 ⟨2, "n", "null-row", 1, none, none⟩] }

end layered_settings

namespace multilayer_settings

/-- Store with two fallback-less layers (two "roots"), each holding a row
for setting `"n"`: the administrative invariant `exactly one root layer`
is violated. -/
def twoRoots_db : Session :=
  { layers := [⟨1, "rootA", none⟩, ⟨2, "rootB", none⟩],
    settings := [⟨1, "n", "fromA", 1, none, none⟩,
                 ⟨2, "n", "fromB", 2, none, none⟩] }

/-- Store with no fallback-less layer at all (the two layers point at each
other), and a row that would be found if a root were designated. -/
def noRoot_db : Session :=
  { layers := [⟨1, "a", some 2⟩, ⟨2, "b", some 1⟩],
    settings := [⟨1, "n", "v", 1, none, none⟩] }

/-- Store whose `fallback_id` chain is the 2-cycle `1 → 2 → 1` and which
contains no setting rows, so every lookup misses. -/
def cyclic_db : Session :=
  { layers := [⟨1, "a", some 2⟩, ⟨2, "b", some 1⟩],
    settings := [] }

/-- Store for the C9 witness: root layer `1` with an unqualified default
row for `"d"`, and layer `2` falling back to it. -/
def groupWitness_db : Session :=
  { layers := [⟨1, "system", none⟩, ⟨2, "account", some 1⟩],
    settings := [⟨1, "d", "dv", 1, none, none⟩] }

end multilayer_settings

namespace db

/-- Concrete session operations for the C10 witness: state is an `Int`,
`commit` succeeds and keeps the state, `rollback` resets it to `0`. -/
def intOps : SessionOps Int Unit :=
  { commit := fun s => (s, none), rollback := fun _ => 0 }

end db

namespace layered_settings

/-- A hit at the requested position is terminal: when the first lookup
returns a row, `get_setting` returns it unchanged. -/
theorem get_setting_found (db : Session) (name : String) (lid : Int)
    (e : Option Int) (ps : List (Option Int)) (r : LayeredSetting)
    (h : lookupSetting db name lid e = some r) :
    LayeredSetting.get_setting db name lid e ps = some r := by
  rw [LayeredSetting.get_setting, dif_neg (fun hc => by simp [h] at hc)]
  exact h

/-- Instrumented version of `get_setting_found`: a hit at the requested
position produces a trace with exactly one lookup. -/
theorem get_setting_trace_found (db : Session) (name : String) (lid : Int)
    (e : Option Int) (ps : List (Option Int)) (r : LayeredSetting)
    (h : lookupSetting db name lid e = some r) :
    get_setting_trace db name lid e ps = (some r, [(lid, e)]) := by
  rw [get_setting_trace, dif_neg (fun hc => by simp [h] at hc)]
  rw [h]

/-- A call with null entity and no ancestors is a single lookup: its
continuation guard `not result and (entity_id or parent_ids)` is false. -/
theorem get_setting_none_nil (db : Session) (name : String) (lid : Int) :
    LayeredSetting.get_setting db name lid none [] = lookupSetting db name lid none := by
  rw [LayeredSetting.get_setting]
  simp [truthy]

/-- Trace version of `get_setting_none_nil`. -/
theorem get_setting_trace_none_nil (db : Session) (name : String) (lid : Int) :
    get_setting_trace db name lid none [] = (lookupSetting db name lid none, [(lid, none)]) := by
  rw [get_setting_trace]
  simp [truthy]

/-- One unfolding of `get_setting` on a miss with a non-empty ancestor
list, with the dependent guard already discharged. -/
theorem get_setting_cons (db : Session) (name : String) (lid : Int)
    (e : Option Int) (p : Option Int) (rest : List (Option Int))
    (h : lookupSetting db name lid e = none) :
    LayeredSetting.get_setting db name lid e (p :: rest) =
      (match findLayer db lid with
       | some layer =>
         match layer.fallback_id with
         | some f =>
           if (f != 0) = true then LayeredSetting.get_setting db name f p rest
           else
             match findDefaultLayer db with
             | some dl => LayeredSetting.get_setting db name dl.id none []
             | none => none
         | none =>
           match findDefaultLayer db with
           | some dl => LayeredSetting.get_setting db name dl.id none []
           | none => none
       | none =>
         match findDefaultLayer db with
         | some dl => LayeredSetting.get_setting db name dl.id none []
         | none => none) := by
  rw [LayeredSetting.get_setting, dif_pos ⟨h, Or.inr (by simp)⟩]

/-- One unfolding of `get_setting` on a miss with a truthy entity and an
exhausted ancestor list: the call short-circuits to the default-layer
attempt, which is a single lookup at the default layer with null entity. -/
theorem get_setting_nil (db : Session) (name : String) (lid : Int)
    (e : Option Int) (h : lookupSetting db name lid e = none)
    (ht : truthy e = true) :
    LayeredSetting.get_setting db name lid e [] =
      (match findDefaultLayer db with
       | some dl => lookupSetting db name dl.id none
       | none => none) := by
  rw [LayeredSetting.get_setting, dif_pos ⟨h, Or.inl ht⟩]
  rcases hdl : findDefaultLayer db with _ | dl
  · simp [hdl]
  · simp [hdl, get_setting_none_nil]

/-- The first component of the instrumented resolver is the resolver. -/
theorem get_setting_trace_fst (db : Session) (name : String)
    (lid : Int) (e : Option Int) (ps : List (Option Int)) :
    (get_setting_trace db name lid e ps).1 = LayeredSetting.get_setting db name lid e ps := by
  induction lid, e, ps using get_setting_trace.induct db name
  case case10 lid e ps r h =>
    by_cases hc : lookupSetting db name lid e = none ∧ (truthy e = true ∨ ps ≠ [])
    · exact absurd hc h
    · rw [get_setting_trace, LayeredSetting.get_setting, dif_neg hc, dif_neg hc]
  all_goals rw [get_setting_trace, LayeredSetting.get_setting]
  all_goals simp_all [get_setting_none_nil, get_setting_trace_none_nil]
  all_goals (split <;> rfl)

/-- Resolution issues at most `len parent_ids + 2` store lookups: each
recursive step but the last consumes one ancestor, and the default-layer
fallthrough is a single further lookup. -/
theorem get_setting_trace_length (db : Session) (name : String)
    (lid : Int) (e : Option Int) (ps : List (Option Int)) :
    (get_setting_trace db name lid e ps).2.length ≤ ps.length + 2 := by
  induction lid, e, ps using get_setting_trace.induct db name
  case case10 lid e ps r h =>
    by_cases hc : lookupSetting db name lid e = none ∧ (truthy e = true ∨ ps ≠ [])
    · exact absurd hc h
    · rw [get_setting_trace, dif_neg hc]
      simp
  all_goals rw [get_setting_trace]
  all_goals simp_all [get_setting_trace_none_nil]
  all_goals (try split) <;> simp_all

/-- When every lookup the resolver issues misses, the instrumented
resolver returns `none`. -/
theorem get_setting_trace_all_miss (db : Session) (name : String)
    (lid : Int) (e : Option Int) (ps : List (Option Int))
    (h : ∀ q ∈ (get_setting_trace db name lid e ps).2,
      lookupSetting db name q.1 q.2 = none) :
    (get_setting_trace db name lid e ps).1 = none := by
  induction lid, e, ps using get_setting_trace.induct db name
  case case10 lid e ps r hg =>
    by_cases hc : lookupSetting db name lid e = none ∧ (truthy e = true ∨ ps ≠ [])
    · exact absurd hc hg
    · rw [get_setting_trace, dif_neg hc] at h ⊢
      exact h (lid, e) (by simp)
  all_goals rw [get_setting_trace] at h ⊢
  all_goals simp_all [get_setting_trace_none_nil]
  all_goals (split <;> rfl)

/-- When a call falls all the way through to the default-layer attempt
(`reachesDefault`), its value is that of the single default-layer lookup
with null entity, or `none` when no fallback-less layer exists. -/
theorem reachesDefault_get_setting (db : Session) (name : String)
    (ps : List (Option Int)) :
    ∀ (lid : Int) (e : Option Int), reachesDefault db name lid e ps = true →
    LayeredSetting.get_setting db name lid e ps =
      (match findDefaultLayer db with
       | some dl => lookupSetting db name dl.id none
       | none => none) := by
  induction ps with
  | nil =>
    intro lid e h
    rw [reachesDefault] at h
    simp only [Bool.and_eq_true, Option.isNone_iff_eq_none] at h
    exact get_setting_nil db name lid e h.1 h.2
  | cons p rest ih =>
    intro lid e h
    rw [reachesDefault] at h
    simp only [Bool.and_eq_true, Option.isNone_iff_eq_none] at h
    rw [get_setting_cons db name lid e p rest h.1]
    have h2 := h.2
    rcases hfl : findLayer db lid with _ | layer
    · rcases hdl : findDefaultLayer db with _ | dl <;> simp [hdl, get_setting_none_nil]
    · rw [hfl] at h2
      rcases hfb : layer.fallback_id with _ | f
      · rcases hdl : findDefaultLayer db with _ | dl <;>
          simp [hfb, hdl, get_setting_none_nil]
      · simp only [hfb] at h2
        by_cases hf : f = 0
        · rcases hdl : findDefaultLayer db with _ | dl <;>
            simp [hfb, hf, hdl, get_setting_none_nil]
        · have hr : reachesDefault db name f p rest = true := by
            simpa [hf] using h2
          simp [hfb, hf, ih f p hr]

end layered_settings

namespace multilayer_settings

/-- A `_get_setting` call with null entity and null parent is a single
lookup, independently of any fuel beyond the one call it makes: its
continuation guard is false. -/
theorem get_setting_fuel_none_none (fuel : Nat) (db : Session)
    (name : String) (lid : Int) :
    MultilayerSetting.get_setting_fuel (fuel + 1) db name lid none none =
      some (lookupSetting db name lid none) := by
  simp [MultilayerSetting.get_setting_fuel, truthy]

end multilayer_settings

namespace layered_settings

/-- When the entity argument is null or a truthy (nonzero) id, the
embedded where-clause coincides with exact matching on `entity_id`. -/
theorem lookup_exact (db : Session) (name : String) (lid : Int)
    (e : Option Int) (he : e = none ∨ truthy e = true) :
    lookupSetting db name lid e =
      db.settings.find? (fun s =>
        s.setting_name == name && s.layer_id == lid && s.entity_id == e) := by
  unfold lookupSetting
  congr 1
  funext s
  rcases he with h | h
  · simp [settingMatches, h, truthy]
  · simp [settingMatches, h]

/-- C1 (amended): for every store state and query `(name, layerId,
entityId)` whose entity id is null or nonzero — i.e. not the Python-falsy
id `0` — such that a setting row exists at exactly that `(name, layer_id,
entity_id)` (as the first exact match of the store), `get_setting` returns
that row and issues exactly one store lookup: no fallback layer, ancestor,
or root default is consulted.  The original claim, quantified over all
entity ids, fails at `entity_id = 0` (see the counterexample). -/
theorem claim_C1 (db : Session) (name : String) (lid : Int) (e : Option Int)
    (ps : List (Option Int)) (r : LayeredSetting)
    (he : e = none ∨ truthy e = true)
    (hr : db.settings.find? (fun s =>
        s.setting_name == name && s.layer_id == lid && s.entity_id == e) = some r) :
    LayeredSetting.get_setting db name lid e ps = some r ∧
    get_setting_trace db name lid e ps = (some r, [(lid, e)]) := by
  have hl : lookupSetting db name lid e = some r := by
    rw [lookup_exact db name lid e he]
    exact hr
  exact ⟨get_setting_found db name lid e ps r hl,
         get_setting_trace_found db name lid e ps r hl⟩

/-- C1 witness: in the Scenario A store the root row `lights = "0"` is an
exact match for `(lights, layer 1, null entity)`, and `get_setting`
returns it with a one-element trace. -/
theorem claim_C1_witness :
    LayeredSetting.get_setting scenarioA_db "lights" 1 none [some 9] =
      some ⟨1, "lights", "0", 1, none, none⟩ ∧
    get_setting_trace scenarioA_db "lights" 1 none [some 9] =
      (some ⟨1, "lights", "0", 1, none, none⟩, [(1, none)]) :=
  claim_C1 scenarioA_db "lights" 1 none [some 9]
    ⟨1, "lights", "0", 1, none, none⟩ (Or.inl rfl) rfl

/-- C1 counterexample: in `zeroEntity_db` a row exists at exactly
`("n", layer 1, entity 0)`, yet `get_setting` with `entity_id = 0` returns
`none`: the truthiness test `if entity_id:` routes the falsy id `0` to the
`entity_id IS NULL` clause, so the exact row is never found. -/
theorem claim_C1_counterexample :
    zeroEntity_db.settings.find? (fun s =>
      s.setting_name == "n" && s.layer_id == 1 && s.entity_id == some 0) =
      some ⟨1, "n", "v", 1, some 0, none⟩ ∧
    LayeredSetting.get_setting zeroEntity_db "n" 1 (some 0) [] = none := by
  constructor
  · rfl
  · simp [LayeredSetting.get_setting, lookupSetting, settingMatches, truthy,
      zeroEntity_db, List.find?]

/-- C2: on a miss at `(name, layerId, entityId)` with a non-empty ancestor
list, when the registry holds the current layer and its `fallback_id` is a
(nonzero, hence Python-truthy) layer id `f`, `get_setting` recurses with
`f` as the new layer, the first ancestor as the new entity id and the
remaining ancestors as the new list — layer and entity advance together
one step each.  In particular (second conjunct) Scenario B resolves
`lights` for user `U2 = 31` with ancestors `[G2 = 21, A2 = 11]` to the
group row `"g20"`. -/
theorem claim_C2 (db : Session) (name : String) (lid : Int) (e p : Option Int)
    (rest : List (Option Int)) (L : Layer) (f : Int)
    (h1 : lookupSetting db name lid e = none)
    (h2 : findLayer db lid = some L)
    (h3 : L.fallback_id = some f) (h4 : f ≠ 0) :
    LayeredSetting.get_setting db name lid e (p :: rest) =
      LayeredSetting.get_setting db name f p rest ∧
    (LayeredSetting.get_setting scenarioB_db "lights" 4 (some 31)
        [some 21, some 11]).map (fun s => s.value) = some "g20" := by
  constructor
  · rw [get_setting_cons db name lid e p rest h1]
    simp [h2, h3, h4]
  · simp [LayeredSetting.get_setting, lookupSetting, settingMatches, findLayer,
      findDefaultLayer, truthy, scenarioB_db, List.find?]

/-- C2 witness: one recursion step of Scenario B, by `claim_C2` at the
concrete store: the miss at the user layer advances to the group layer
with entity `G2 = 21` and remaining ancestors `[A2 = 11]`. -/
theorem claim_C2_witness :
    LayeredSetting.get_setting scenarioB_db "lights" 4 (some 31) [some 21, some 11] =
      LayeredSetting.get_setting scenarioB_db "lights" 3 (some 21) [some 11] ∧
    (LayeredSetting.get_setting scenarioB_db "lights" 4 (some 31)
        [some 21, some 11]).map (fun s => s.value) = some "g20" :=
  claim_C2 scenarioB_db "lights" 4 (some 31) (some 21) [some 11]
    ⟨4, "user", some 3⟩ 3 rfl rfl rfl (by decide)

/-- C3 (amended): whenever the walk falls all the way through to the
default-layer attempt (`reachesDefault`: every lookup on the walked chain
misses and the continuation guard `not result and (entity_id or
parent_ids)` holds at every recursive state), and the unique fallback-less
layer holds a row for the name with null entity, `get_setting` returns
that root row.  In particular (second conjunct) Scenario A: ancestors
`[null, A1 = 11]` resolve to the system row `"0"`.  The original claim —
root reached whenever no row matches along the chain, and for every
ancestor list shorter than the remaining depth — fails when the guard dies
with a null entity and an exhausted list (see the counterexample). -/
theorem claim_C3 (db : Session) (name : String) (lid : Int) (e : Option Int)
    (ps : List (Option Int)) (dl : Layer) (r : LayeredSetting)
    (h1 : reachesDefault db name lid e ps = true)
    (h2 : findDefaultLayer db = some dl)
    (h3 : lookupSetting db name dl.id none = some r) :
    LayeredSetting.get_setting db name lid e ps = some r ∧
    (LayeredSetting.get_setting scenarioA_db "lights" 4 (some 7)
        [none, some 11]).map (fun s => s.value) = some "0" := by
  constructor
  · rw [reachesDefault_get_setting db name ps lid e h1]
    simp [h2, h3]
  · simp [LayeredSetting.get_setting, lookupSetting, settingMatches, findLayer,
      findDefaultLayer, truthy, scenarioA_db, List.find?]

/-- C3 witness: Scenario A through `claim_C3`: all lookups on the chain
user(7) → group(null) → account(11) miss, the guard survives each step,
and the system row `"0"` is returned. -/
theorem claim_C3_witness :
    LayeredSetting.get_setting scenarioA_db "lights" 4 (some 7) [none, some 11] =
      some ⟨1, "lights", "0", 1, none, none⟩ ∧
    (LayeredSetting.get_setting scenarioA_db "lights" 4 (some 7)
        [none, some 11]).map (fun s => s.value) = some "0" :=
  claim_C3 scenarioA_db "lights" 4 (some 7) [none, some 11]
    ⟨1, "system", none⟩ ⟨1, "lights", "0", 1, none, none⟩ rfl rfl rfl

/-- C3 counterexample: in the Scenario A store, the query at the user
layer with entity `7` and ancestor list `[null]` misses everywhere on its
chain and the root default row exists, yet `get_setting` returns `none`:
after consuming the null ancestor the state is `(entity = null, ancestors
= [])`, the guard `entity_id or parent_ids` is false, and the root default
is never consulted — refuting both "returns the root row's value" and
"short-circuits to the root default" for ancestor lists shorter than the
remaining depth. -/
theorem claim_C3_counterexample :
    LayeredSetting.get_setting scenarioA_db "lights" 4 (some 7) [none] = none ∧
    findDefaultLayer scenarioA_db = some ⟨1, "system", none⟩ ∧
    lookupSetting scenarioA_db "lights" 1 none = some ⟨1, "lights", "0", 1, none, none⟩ := by
  refine ⟨?_, rfl, rfl⟩
  simp [LayeredSetting.get_setting, lookupSetting, settingMatches, findLayer,
    findDefaultLayer, truthy, scenarioA_db, List.find?]

/-- C4: when every lookup the resolver issues — at the requested position,
at every position reached through the fallback chain, and at the root
default (exactly the positions recorded by `get_setting_trace`) — misses,
`get_setting` returns `none`.  The embedding is a total function into
`Option`, so no error is raised on any miss: a miss only selects the next
fallback step or this terminal `none`. -/
theorem claim_C4 (db : Session) (name : String) (lid : Int) (e : Option Int)
    (ps : List (Option Int))
    (h : ∀ q ∈ (get_setting_trace db name lid e ps).2,
      lookupSetting db name q.1 q.2 = none) :
    LayeredSetting.get_setting db name lid e ps = none := by
  rw [← get_setting_trace_fst db name lid e ps]
  exact get_setting_trace_all_miss db name lid e ps h

/-- C4 witness: Scenario C — a name recorded nowhere: in a store with no
setting rows every lookup misses and resolution returns `none`. -/
theorem claim_C4_witness :
    LayeredSetting.get_setting empty_settings_db "whoami" 4 (some 7) [some 5, some 3] = none :=
  claim_C4 empty_settings_db "whoami" 4 (some 7) [some 5, some 3] (fun _ _ => rfl)

/-- C5: the store lookup does NOT have exact-match semantics at the
concrete entity id `0`: in `zeroVsNull_db`, looking up `("n", layer 1,
entity 0)` returns the null-entity row, not the row whose `entity_id` is
exactly `0` — `if entity_id:` treats the id `0` as "no entity".  (For null
and nonzero ids the clause is exact, see `lookup_exact`.)  This refutes
"a concrete entity id (including the id 0) matches only rows with exactly
that entity_id and never a row with null entity_id" and exhibits the
falsy-value convention the spec forbids; `MultilayerSetting._get_setting`
builds the identical clause. -/
theorem claim_C5 :
    lookupSetting zeroVsNull_db "n" 1 (some 0) =
      some ⟨2, "n", "null-row", 1, none, none⟩ ∧
    (⟨2, "n", "null-row", 1, none, none⟩ : LayeredSetting).entity_id = none ∧
    (⟨2, "n", "null-row", 1, none, none⟩ : LayeredSetting).entity_id ≠ some 0 := by
  refine ⟨rfl, rfl, by decide⟩

/-- C7: the instrumented resolver issues at most `len parent_ids + 2`
store lookups — each recursive step either consumes one ancestor or is the
default-layer fallthrough — and the default-layer fallthrough call (null
entity, no ancestors) performs exactly one lookup, i.e. never recurses
further. -/
theorem claim_C7 (db : Session) (name : String) (lid : Int) (e : Option Int)
    (ps : List (Option Int)) :
    (get_setting_trace db name lid e ps).2.length ≤ ps.length + 2 ∧
    (get_setting_trace db name lid none []).2.length = 1 := by
  refine ⟨get_setting_trace_length db name lid e ps, ?_⟩
  rw [get_setting_trace_none_nil]
  rfl

end layered_settings

namespace multilayer_settings

/-- In the cyclic registry `1 → 2 → 1`, a query that misses everywhere
with truthy entity and parent ids exhausts any amount of fuel from either
layer of the cycle: the recursion never returns. -/
theorem cyclic_lookup_none (name : String) (lid : Int) (e : Option Int) :
    lookupSetting cyclic_db name lid e = none := rfl

/-- Registry scans of the cyclic store, precomputed. -/
theorem cyclic_registry :
    findLayer cyclic_db 1 = some ⟨1, "a", some 2⟩ ∧
    findLayer cyclic_db 2 = some ⟨2, "b", some 1⟩ ∧
    findDefaultLayer cyclic_db = none := ⟨rfl, rfl, rfl⟩

theorem cyclic_diverges_aux (fuel : Nat) :
    MultilayerSetting.get_setting_fuel fuel cyclic_db "n" 1 (some 7) (some 7) = none ∧
    MultilayerSetting.get_setting_fuel fuel cyclic_db "n" 2 (some 7) (some 7) = none := by
  induction fuel with
  | zero => exact ⟨rfl, rfl⟩
  | succ n ih =>
    constructor
    · simp [MultilayerSetting.get_setting_fuel, truthy, cyclic_lookup_none,
        cyclic_registry.1, cyclic_registry.2.1, cyclic_registry.2.2, ih.2]
    · simp [MultilayerSetting.get_setting_fuel, truthy, cyclic_lookup_none,
        cyclic_registry.1, cyclic_registry.2.1, cyclic_registry.2.2, ih.1]

/-- C6: `get_setting_default` neither raises nor reports a
`ConfigurationError` on a broken root invariant (no such error exists
anywhere in the code): with two fallback-less layers it silently resolves
against the first one the scan returns (yielding `"fromA"`, an arbitrary
pick), and with zero fallback-less layers it silently returns `None`. -/
theorem claim_C6 :
    MultilayerSetting.get_setting_default twoRoots_db "n" =
      some (some ⟨1, "n", "fromA", 1, none, none⟩) ∧
    MultilayerSetting.get_setting_default noRoot_db "n" = some none := ⟨rfl, rfl⟩

/-- C8: the fallback-chain traversal of `_get_setting` is NOT bounded and
raises no `ConfigurationError` on a cycle: in the cyclic registry
`1 → 2 → 1` with every lookup missing, the call has not returned within
ANY amount of fuel — the Python recursion is unbounded (in practice it
dies with a `RecursionError`, not the `ConfigurationError` the spec
mandates). -/
theorem claim_C8 (fuel : Nat) :
    MultilayerSetting.get_setting_fuel fuel cyclic_db "n" 1 (some 5) (some 7) = none := by
  cases fuel with
  | zero => rfl
  | succ n =>
    simp [MultilayerSetting.get_setting_fuel, truthy, cyclic_lookup_none,
      cyclic_registry.1, cyclic_registry.2.1, cyclic_registry.2.2,
      (cyclic_diverges_aux n).2]

/-- C9: the group-indirection step of `_get_setting`.  (a) On a miss with
a truthy group/parent id, when the current layer is in the registry and
has a truthy `fallback_id`, the call recurses at the fallback layer with
the group id as both the new entity filter and the retained group id — the
original entity id is dropped.  (b) On a miss with a truthy group id at a
layer whose `fallback_id` is null (the root), with the fallback-less
registry scan returning `dl`, the call makes exactly one final attempt:
its value is the single unqualified lookup `(name, dl, null entity)` —
both entity and group cleared — independent of any further fuel. -/
theorem claim_C9 :
    (∀ (fuel : Nat) (db : Session) (name : String) (lid : Int)
        (e g : Option Int) (L : Layer) (f : Int),
      lookupSetting db name lid e = none → truthy g = true →
      findLayer db lid = some L → L.fallback_id = some f → f ≠ 0 →
      MultilayerSetting.get_setting_fuel (fuel + 1) db name lid e g =
        MultilayerSetting.get_setting_fuel fuel db name f g g) ∧
    (∀ (fuel : Nat) (db : Session) (name : String) (lid : Int)
        (e g : Option Int) (L dl : Layer),
      lookupSetting db name lid e = none → truthy g = true →
      findLayer db lid = some L → L.fallback_id = none →
      findDefaultLayer db = some dl →
      MultilayerSetting.get_setting_fuel (fuel + 2) db name lid e g =
        some (lookupSetting db name dl.id none)) := by
  constructor
  · intro fuel db name lid e g L f h1 hg h2 h3 h4
    simp [MultilayerSetting.get_setting_fuel, h1, hg, h2, h3, h4]
  · intro fuel db name lid e g L dl h1 hg h2 h3 h5
    have ht : truthy (none : Option Int) = false := rfl
    simp [MultilayerSetting.get_setting_fuel, h1, hg, h2, h3, h5, ht]

/-- C9 witness: in `groupWitness_db`, a miss at layer 2 with entity 4 and
group 4 recurses to the root layer 1 carrying the group id as the entity
filter; the subsequent miss at the root makes the one final unqualified
attempt, which returns the global default row `"dv"`. -/
theorem claim_C9_witness :
    MultilayerSetting.get_setting_fuel 2 groupWitness_db "d" 2 (some 4) (some 4) =
      MultilayerSetting.get_setting_fuel 1 groupWitness_db "d" 1 (some 4) (some 4) ∧
    MultilayerSetting.get_setting_fuel 3 groupWitness_db "d" 1 (some 4) (some 4) =
      some (lookupSetting groupWitness_db "d" 1 none) :=
  ⟨claim_C9.1 1 groupWitness_db "d" 2 (some 4) (some 4) ⟨2, "account", some 1⟩ 1
      rfl rfl rfl rfl (by decide),
   claim_C9.2 1 groupWitness_db "d" 1 (some 4) (some 4) ⟨1, "system", none⟩
      ⟨1, "system", none⟩ rfl rfl rfl rfl rfl⟩

end multilayer_settings

namespace db

/-- C10: for every session, block and commit behaviour, `dbsession_ctx`
never lets an exception reach the code around the `with`-statement (first
conjunct); when the block raises, the session is rolled back (second); and
when the block succeeds but the final `auto_commit` commit raises, the
session is rolled back as well (third).  The bare `except:` catches the
exception and the generator returns without re-raising, so
`contextlib.contextmanager` reports it as suppressed. -/
theorem claim_C10 {σ ε : Type} (ops : SessionOps σ ε) (sf : Unit → σ)
    (ac : Bool) (body : σ → σ × Option ε) :
    (dbsession_ctx ops sf ac body).2 = none ∧
    (∀ (s1 : σ) (err : ε), body (sf ()) = (s1, some err) →
      dbsession_ctx ops sf ac body = (ops.rollback s1, none)) ∧
    (∀ (s1 s2 : σ) (err : ε), ac = true → body (sf ()) = (s1, none) →
      ops.commit s1 = (s2, some err) →
      dbsession_ctx ops sf ac body = (ops.rollback s2, none)) := by
  refine ⟨?_, ?_, ?_⟩
  · unfold dbsession_ctx
    rcases hb : body (sf ()) with ⟨s1, e1⟩
    rcases hc : ops.commit s1 with ⟨s2, e2⟩
    cases e1 <;> cases e2 <;> cases ac <;> simp [hb, hc]
  · intro s1 err hb
    unfold dbsession_ctx
    simp [hb]
  · intro s1 s2 err hac hb hc
    unfold dbsession_ctx
    simp [hb, hc, hac]

/-- C10 witness: with integer session state, a factory returning `5` and a
block that increments the state and raises, the `with`-statement completes
normally (`none` observed) and the state is the rollback of the block's
final state `6`. -/
theorem claim_C10_witness :
    (dbsession_ctx intOps (fun _ => 5) true (fun s => (s + 1, some ()))).2 = none ∧
    dbsession_ctx intOps (fun _ => 5) true (fun s => (s + 1, some ())) =
      (intOps.rollback 6, none) :=
  ⟨(claim_C10 intOps (fun _ => 5) true (fun s => (s + 1, some ()))).1,
   (claim_C10 intOps (fun _ => 5) true (fun s => (s + 1, some ()))).2.1 6 ()
     (by decide)⟩

end db
